import Mathlib

/-!
# Verification of the quantitative engine of `src/hurting.py` (`AnimalDiseaseAI`)

Shallow embedding of the epidemic simulator, the intervention evaluator,
the feces risk-scoring formula, and the advisory cache/retry client, in
exact rational arithmetic.  Lists that the Python code builds by
`append` are stored most-recent-first here, so Python `xs[-1]` is the
head and Python `xs[-2]` is index `1`.
-/

/-- Simulation parameters `self.params` of `AnimalDiseaseAI` (beta, gamma,
population, initial_infected), taken as exact rationals. -/
structure SimParams where
  beta : ℚ
  gamma : ℚ
  population : ℚ
  initial_infected : ℚ
deriving DecidableEq

/-- Environment factors `self.env_factors` (temperature, humidity,
migration_rate). -/
structure EnvFactors where
  temperature : ℚ
  humidity : ℚ
  migration_rate : ℚ
deriving DecidableEq

/-- The three lists `S`, `I`, `R` built by `generate_simulation`, stored
most-recent-first (Python appends at the end; we cons at the front). -/
structure SimState where
  S : List ℚ
  I : List ℚ
  R : List ℚ
deriving DecidableEq

/-- The environment-adjusted transmission rate computed once before the loop:
`beta * (1 + 0.02*(temperature-20)/10 + 0.015*(humidity-60)/20)`. -/
def adjusted_beta (p : SimParams) (e : EnvFactors) : ℚ :=
  p.beta * (1 + 2 / 100 * (e.temperature - 20) / 10 + 15 / 1000 * (e.humidity - 60) / 20)

/-- One iteration of the loop body of `generate_simulation`
(src/hurting.py lines 147-153).  Mirrors the statement order of the
source: the new susceptible value is appended to `S` first, and only
then is the new infected value computed, so the Python expression
`S[-2]` inside the `I` update reads index `1` of the already-extended
list `Snew` — which is the previous day's susceptible value. -/
def simStep (p : SimParams) (e : EnvFactors) (st : SimState) : SimState :=
  let new_infected := adjusted_beta p e * st.S.headD 0 * st.I.headD 0 / p.population
  let new_recovered := p.gamma * st.I.headD 0
  let Snew := (st.S.headD 0 - new_infected - e.migration_rate * st.S.headD 0) :: st.S
  let Inew := (st.I.headD 0 + new_infected - new_recovered
      + e.migration_rate * (Snew[1]?.getD 0)) :: st.I
  let Rnew := (st.R.headD 0 + new_recovered) :: st.R
  ⟨Snew, Inew, Rnew⟩

/-- The initial state of the lists:
`S = [population - initial_infected]`, `I = [initial_infected]`, `R = [0]`. -/
def simInit (p : SimParams) : SimState :=
  ⟨[p.population - p.initial_infected], [p.initial_infected], [0]⟩

/-- The simulation state after `t` loop iterations. -/
def simIter (p : SimParams) (e : EnvFactors) (t : ℕ) : SimState :=
  (simStep p e)^[t] (simInit p)

/-- `AnimalDiseaseAI.generate_simulation(days)`: the loop
`for _ in range(1, days)` runs `days - 1` times (none when `days ≤ 1`),
producing the three columns of the returned data frame. -/
def generate_simulation (p : SimParams) (e : EnvFactors) (days : ℕ) : SimState :=
  simIter p e (days - 1)

/-- Day-`t` susceptible value of the data frame produced by
`generate_simulation` (the columns are our lists reversed back into
chronological order); out-of-range days default to `0`. -/
def seriesS (p : SimParams) (e : EnvFactors) (days t : ℕ) : ℚ :=
  ((generate_simulation p e days).S.reverse)[t]?.getD 0

/-- Day-`t` infected value of the produced data frame. -/
def seriesI (p : SimParams) (e : EnvFactors) (days t : ℕ) : ℚ :=
  ((generate_simulation p e days).I.reverse)[t]?.getD 0

/-- Day-`t` recovered value of the produced data frame. -/
def seriesR (p : SimParams) (e : EnvFactors) (days t : ℕ) : ℚ :=
  ((generate_simulation p e days).R.reverse)[t]?.getD 0

/-- The day-`t` susceptible value, read off the iterated state. -/
def Sval (p : SimParams) (e : EnvFactors) (t : ℕ) : ℚ :=
  (simIter p e t).S.headD 0

/-- The day-`t` infected value, read off the iterated state. -/
def Ival (p : SimParams) (e : EnvFactors) (t : ℕ) : ℚ :=
  (simIter p e t).I.headD 0

/-- The day-`t` recovered value, read off the iterated state. -/
def Rval (p : SimParams) (e : EnvFactors) (t : ℕ) : ℚ :=
  (simIter p e t).R.headD 0

/-- Possible outcomes of calling `generate_simulation` in Python:
a data frame, an uncaught `ZeroDivisionError` (population 0 with at
least one loop iteration), an uncaught `ValueError` from the data-frame
constructor (column length mismatch when `days < 1`), or the explicit
`InvalidParameter` failure value that §4.1 of the spec describes (the
source never produces it; the constructor exists so the spec's claim can
be stated). -/
inductive SimOutcome where
  | result (st : SimState)
  | zeroDivisionCrash
  | valueErrorCrash
  | invalidParameterError
deriving DecidableEq

/-- `generate_simulation` together with its Python failure behaviour:
with `days < 1` the three lists (length 1) mismatch the `Day` column
(length `days`) and `pd.DataFrame` raises `ValueError`; with
`population = 0` and `days ≥ 2` the first loop iteration divides by
zero; otherwise the data frame is returned.  No input validation is
performed by the source. -/
def generate_simulation_run (p : SimParams) (e : EnvFactors) (days : ℕ) : SimOutcome :=
  if days < 1 then .valueErrorCrash
  else if p.population = 0 ∧ 2 ≤ days then .zeroDivisionCrash
  else .result (generate_simulation p e days)

lemma headD_eq_getElem?_zero (l : List ℚ) : l[0]?.getD 0 = l.headD 0 := by
  cases l <;> simp

lemma simIter_zero (p : SimParams) (e : EnvFactors) : simIter p e 0 = simInit p := rfl

lemma simIter_succ (p : SimParams) (e : EnvFactors) (t : ℕ) :
    simIter p e (t + 1) = simStep p e (simIter p e t) :=
  Function.iterate_succ_apply' (simStep p e) t (simInit p)

lemma Sval_zero (p : SimParams) (e : EnvFactors) :
    Sval p e 0 = p.population - p.initial_infected := rfl

lemma Ival_zero (p : SimParams) (e : EnvFactors) : Ival p e 0 = p.initial_infected := rfl

lemma Rval_zero (p : SimParams) (e : EnvFactors) : Rval p e 0 = 0 := rfl

lemma simIter_S_cons (p : SimParams) (e : EnvFactors) (t : ℕ) :
    (simIter p e (t + 1)).S = Sval p e (t + 1) :: (simIter p e t).S := by
  rw [Sval, simIter_succ]
  rfl

lemma simIter_I_cons (p : SimParams) (e : EnvFactors) (t : ℕ) :
    (simIter p e (t + 1)).I = Ival p e (t + 1) :: (simIter p e t).I := by
  rw [Ival, simIter_succ]
  rfl

lemma simIter_R_cons (p : SimParams) (e : EnvFactors) (t : ℕ) :
    (simIter p e (t + 1)).R = Rval p e (t + 1) :: (simIter p e t).R := by
  rw [Rval, simIter_succ]
  rfl

lemma Sval_succ (p : SimParams) (e : EnvFactors) (t : ℕ) :
    Sval p e (t + 1) = Sval p e t
      - adjusted_beta p e * Sval p e t * Ival p e t / p.population
      - e.migration_rate * Sval p e t := by
  rw [Sval, Sval, Ival, simIter_succ]
  rfl

lemma Ival_succ (p : SimParams) (e : EnvFactors) (t : ℕ) :
    Ival p e (t + 1) = Ival p e t
      + adjusted_beta p e * Sval p e t * Ival p e t / p.population
      - p.gamma * Ival p e t
      + e.migration_rate * Sval p e t := by
  rw [Ival, Ival, Sval, simIter_succ, simStep]
  simp only [List.getElem?_cons_succ, headD_eq_getElem?_zero, List.headD_cons]

lemma Rval_succ (p : SimParams) (e : EnvFactors) (t : ℕ) :
    Rval p e (t + 1) = Rval p e t + p.gamma * Ival p e t := by
  rw [Rval, Rval, Ival, simIter_succ]
  rfl

lemma simIter_S_length (p : SimParams) (e : EnvFactors) (t : ℕ) :
    (simIter p e t).S.length = t + 1 := by
  induction t with
  | zero => rfl
  | succ n ih => rw [simIter_S_cons, List.length_cons, ih]

lemma simIter_I_length (p : SimParams) (e : EnvFactors) (t : ℕ) :
    (simIter p e t).I.length = t + 1 := by
  induction t with
  | zero => rfl
  | succ n ih => rw [simIter_I_cons, List.length_cons, ih]

lemma simIter_R_length (p : SimParams) (e : EnvFactors) (t : ℕ) :
    (simIter p e t).R.length = t + 1 := by
  induction t with
  | zero => rfl
  | succ n ih => rw [simIter_R_cons, List.length_cons, ih]

lemma simIter_S_reverse_getElem? (p : SimParams) (e : EnvFactors) (n t : ℕ) (ht : t ≤ n) :
    ((simIter p e n).S.reverse)[t]? = some (Sval p e t) := by
  induction n with
  | zero =>
    interval_cases t
    rfl
  | succ m ih =>
    rw [simIter_S_cons, List.reverse_cons]
    rcases Nat.lt_or_ge t (m + 1) with h | h
    · rw [List.getElem?_append_left (by simpa [simIter_S_length] using h)]
      exact ih (Nat.lt_succ_iff.mp h)
    · have ht' : t = m + 1 := le_antisymm ht h
      subst ht'
      have hlen : (simIter p e m).S.reverse.length = m + 1 := by
        rw [List.length_reverse, simIter_S_length]
      rw [← hlen, List.getElem?_concat_length]

lemma simIter_I_reverse_getElem? (p : SimParams) (e : EnvFactors) (n t : ℕ) (ht : t ≤ n) :
    ((simIter p e n).I.reverse)[t]? = some (Ival p e t) := by
  induction n with
  | zero =>
    interval_cases t
    rfl
  | succ m ih =>
    rw [simIter_I_cons, List.reverse_cons]
    rcases Nat.lt_or_ge t (m + 1) with h | h
    · rw [List.getElem?_append_left (by simpa [simIter_I_length] using h)]
      exact ih (Nat.lt_succ_iff.mp h)
    · have ht' : t = m + 1 := le_antisymm ht h
      subst ht'
      have hlen : (simIter p e m).I.reverse.length = m + 1 := by
        rw [List.length_reverse, simIter_I_length]
      rw [← hlen, List.getElem?_concat_length]

lemma simIter_R_reverse_getElem? (p : SimParams) (e : EnvFactors) (n t : ℕ) (ht : t ≤ n) :
    ((simIter p e n).R.reverse)[t]? = some (Rval p e t) := by
  induction n with
  | zero =>
    interval_cases t
    rfl
  | succ m ih =>
    rw [simIter_R_cons, List.reverse_cons]
    rcases Nat.lt_or_ge t (m + 1) with h | h
    · rw [List.getElem?_append_left (by simpa [simIter_R_length] using h)]
      exact ih (Nat.lt_succ_iff.mp h)
    · have ht' : t = m + 1 := le_antisymm ht h
      subst ht'
      have hlen : (simIter p e m).R.reverse.length = m + 1 := by
        rw [List.length_reverse, simIter_R_length]
      rw [← hlen, List.getElem?_concat_length]

lemma seriesS_eq_Sval (p : SimParams) (e : EnvFactors) (days t : ℕ) (ht : t < days) :
    seriesS p e days t = Sval p e t := by
  rw [seriesS, generate_simulation,
    simIter_S_reverse_getElem? p e (days - 1) t (by omega)]
  rfl

lemma seriesI_eq_Ival (p : SimParams) (e : EnvFactors) (days t : ℕ) (ht : t < days) :
    seriesI p e days t = Ival p e t := by
  rw [seriesI, generate_simulation,
    simIter_I_reverse_getElem? p e (days - 1) t (by omega)]
  rfl

lemma seriesR_eq_Rval (p : SimParams) (e : EnvFactors) (days t : ℕ) (ht : t < days) :
    seriesR p e days t = Rval p e t := by
  rw [seriesR, generate_simulation,
    simIter_R_reverse_getElem? p e (days - 1) t (by omega)]
  rfl

example : Sval ⟨3/10, 1/10, 1000, 1⟩ ⟨20, 60, 0⟩ 0 = 999 := by
  rw [Sval_zero]
  norm_num

example : adjusted_beta ⟨3/10, 1/10, 1000, 1⟩ ⟨20, 60, 0⟩ = 3/10 := by
  rw [adjusted_beta]
  norm_num

/-- One entry of the `self.interventions` catalog: cost, effectiveness,
beta_reduction. -/
structure Intervention where
  cost : ℚ
  effectiveness : ℚ
  beta_reduction : ℚ
deriving DecidableEq

/-- The fixed intervention catalog `self.interventions`
(src/hurting.py lines 121-126). -/
def interventions : List (String × Intervention) :=
  [("vaccination", ⟨5000, 7/10, 3/10⟩),
   ("isolation", ⟨2000, 9/10, 1/2⟩),
   ("sanitation", ⟨1000, 6/10, 1/5⟩),
   ("restriction", ⟨3000, 8/10, 2/5⟩)]

/-- Catalog lookup `self.interventions[measure]`, `none` when
`measure in self.interventions` is false. -/
def findIntervention (m : String) : Option Intervention :=
  interventions.lookup m

/-- The cost a selected measure contributes to `total_cost`
(`0` for unknown ids, which the loop skips). -/
def costOf (m : String) : ℚ :=
  match findIntervention m with
  | some iv => iv.cost
  | none => 0

/-- The beta reduction a selected measure contributes to
`total_beta_reduction` (`0` for unknown ids). -/
def betaRedOf (m : String) : ℚ :=
  match findIntervention m with
  | some iv => iv.beta_reduction
  | none => 0

/-- The `total_cost` accumulated over `selected_measures`. -/
def total_cost (selected : List String) : ℚ :=
  (selected.map costOf).sum

/-- The `total_beta_reduction` accumulated over `selected_measures`. -/
def total_beta_reduction (selected : List String) : ℚ :=
  (selected.map betaRedOf).sum

/-- The dictionary returned by `evaluate_interventions`. -/
structure InterventionEvaluation where
  total_cost : ℚ
  r0_reduction : ℚ
  new_r0 : ℚ
  measures : List String
deriving DecidableEq

/-- Possible outcomes of calling `evaluate_interventions` in Python:
the result dictionary, an uncaught `ZeroDivisionError` (either from
`beta / gamma` when `gamma = 0`, or from dividing by `original_r0 = 0`
when `beta = 0`), or the explicit `InvalidParameter` failure value that
§4.2 of the spec describes (never produced by the source; the
constructor exists so the spec's claim can be stated). -/
inductive EvalOutcome where
  | result (ev : InterventionEvaluation)
  | zeroDivisionCrash
  | invalidParameterError
deriving DecidableEq

/-- `AnimalDiseaseAI.evaluate_interventions(selected_measures)`
(src/hurting.py lines 162-184), over the current `beta` and `gamma`
parameters, together with its Python failure behaviour: the source has
no guard, so `original_r0 = beta / gamma` raises `ZeroDivisionError`
when `gamma = 0`, and `(original_r0 - new_r0) / original_r0` raises
`ZeroDivisionError` when `original_r0 = 0`. -/
def evaluate_interventions (beta gamma : ℚ) (selected : List String) : EvalOutcome :=
  if gamma = 0 then .zeroDivisionCrash
  else
    let original_r0 := beta / gamma
    let new_beta := max (1/100) (beta * (1 - total_beta_reduction selected))
    let new_r0 := new_beta / gamma
    if original_r0 = 0 then .zeroDivisionCrash
    else .result ⟨total_cost selected,
      (original_r0 - new_r0) / original_r0 * 100, new_r0, selected⟩

/-- One object returned by the detector: `{"name": ..., "confidence": ...}`
(detector confidences live in `[0,1]`). -/
structure DetItem where
  name : String
  confidence : ℚ
deriving DecidableEq

/-- One classification returned by the classifier:
`{"label": ..., "confidence": ...}` (percent scale `[0,100]`). -/
structure ClsItem where
  label : String
  confidence : ℚ
deriving DecidableEq

/-- `feces_config["risk_threshold"]`. -/
def risk_threshold : ℚ := 13/20

/-- `feces_config["high_risk_objects"]`. -/
def high_risk_objects : List String := ["bird", "chicken", "duck"]

/-- `feces_config["high_risk_features"]`. -/
def high_risk_features : List String :=
  ["diarrhea", "abnormal", "parasite", "blood", "mucus", "liquid"]

/-- Substring search on character lists: Python `sub in s`. -/
def listHasSub (sub : List Char) : List Char → Bool
  | [] => List.isPrefixOf sub []
  | c :: rest => List.isPrefixOf sub (c :: rest) || listHasSub sub rest

/-- Python substring containment `sub in s` on strings. -/
def strHasSub (sub s : String) : Bool :=
  listHasSub sub.data s.data

/-- The filter over detections (src/hurting.py lines 322-326):
label among `high_risk_objects` and confidence `> 0.5`. -/
def isRiskObject (o : DetItem) : Bool :=
  high_risk_objects.contains o.name && decide ((1:ℚ)/2 < o.confidence)

/-- The filter over classifications (src/hurting.py lines 329-334):
some high-risk keyword is a substring of the lowercased label and
confidence `> 50`. -/
def isRiskFeature (f : ClsItem) : Bool :=
  high_risk_features.any (fun k => strHasSub k f.label.toLower)
    && decide ((50:ℚ) < f.confidence)

/-- `risk_objects`: the filtered detection list. -/
def risk_objects (dets : List DetItem) : List DetItem :=
  dets.filter isRiskObject

/-- `risk_features`: the filtered classification list. -/
def risk_features (cls : List ClsItem) : List ClsItem :=
  cls.filter isRiskFeature

/-- `avian_flu_risk` (src/hurting.py lines 345-348):
`0.3 * min((40 - h_mean)/10 + (s_mean - 0.65)/0.1, 1.0)` when
`h_mean < 40 and s_mean > 0.65`, else `0`. -/
def avian_flu_risk (h_mean s_mean : ℚ) : ℚ :=
  if h_mean < 40 ∧ 13/20 < s_mean then
    3/10 * min ((40 - h_mean) / 10 + (s_mean - 13/20) / (1/10)) 1
  else 0

/-- `total_risk` (src/hurting.py lines 351-357): weighted risk-object and
risk-feature confidence sums, plus `avian_flu_risk`, plus the `0.3`
hue bonus (`h_mean < 50`) and the `0.3` saturation bonus
(`s_mean > 0.6`). -/
def total_risk (dets : List DetItem) (cls : List ClsItem) (h_mean s_mean : ℚ) : ℚ :=
  ((risk_objects dets).map (fun o => o.confidence * (1/2))).sum
    + ((risk_features cls).map (fun f => f.confidence * (1/5))).sum
    + avian_flu_risk h_mean s_mean
    + (if h_mean < 50 then 3/10 else 0)
    + (if 3/5 < s_mean then 3/10 else 0)

/-- The dynamic threshold (src/hurting.py line 360): `0.6` when some
risk object is named `chicken` or `duck`, else `0.65`. -/
def dynamic_threshold (dets : List DetItem) : ℚ :=
  if (risk_objects dets).any (fun o => o.name = "chicken" || o.name = "duck")
  then 3/5 else risk_threshold

/-- `risk_level` (src/hurting.py line 362): the string `"高风险"`
(HighRisk) when `total_risk > threshold`, else `"低风险"` (LowRisk). -/
def risk_level (dets : List DetItem) (cls : List ClsItem) (h_mean s_mean : ℚ) : String :=
  if dynamic_threshold dets < total_risk dets cls h_mean s_mean
  then "高风险" else "低风险"

/-- The outcome of one remote request attempt inside
`ai_analysis_with_retry`: a parsed reply string, a
`requests.exceptions.RequestException` (network or HTTP failure), or a
`KeyError` while extracting `choices[0]["message"]["content"]`
(malformed response shape). -/
inductive AttemptOutcome where
  | ok (s : String)
  | requestError
  | parseError
deriving DecidableEq

/-- The observable trace of one `ai_analysis_with_retry` call: the
returned value (`none` is Python `None`, the Unavailable sentinel), the
list of `time.sleep` durations in order, and the number of remote
requests issued. -/
structure RetryTrace where
  result : Option String
  sleeps : List ℕ
  requests : ℕ
deriving DecidableEq

/-- The `while retries < max_retries` loop of `ai_analysis_with_retry`
(src/hurting.py lines 186-235) with `max_retries = 3`, its default and
only call site value, driven by an oracle `att` giving the outcome of
the attempt made at each value of the `retries` counter.  A successful
attempt returns the content; a `RequestException` increments `retries`
and sleeps `2 ** retries`; a `KeyError` returns `None` at once; falling
out of the loop returns `None`. -/
def retryLoop (att : ℕ → AttemptOutcome) (retries : ℕ) : RetryTrace :=
  if _h : retries < 3 then
    match att retries with
    | .ok s => ⟨some s, [], 1⟩
    | .parseError => ⟨none, [], 1⟩
    | .requestError =>
      let t := retryLoop att (retries + 1)
      ⟨t.result, 2 ^ (retries + 1) :: t.sleeps, t.requests + 1⟩
  else ⟨none, [], 0⟩
termination_by 3 - retries
decreasing_by omega

/-- `AnimalDiseaseAI.ai_analysis_with_retry(query)`: the retry loop
started with `retries = 0`. -/
def ai_analysis_with_retry (att : ℕ → AttemptOutcome) : RetryTrace :=
  retryLoop att 0

/-- The composite cache key used by `ai_analysis`
(src/hurting.py line 239): the query joined with the rendered parameter
and environment snapshots. -/
def cache_key (query paramsRepr envRepr : String) : String :=
  query ++ "_" ++ paramsRepr ++ "_" ++ envRepr

/-- `AnimalDiseaseAI.ai_analysis(query)` (src/hurting.py lines 237-246),
with the retry client abstracted into an oracle `fetch` giving the
result of each successive `ai_analysis_with_retry` invocation (`none`
is the `None` sentinel).  `calls` counts the remote fetches so far.  On
a cache hit the cached text is returned with no fetch.  On a miss the
fetch result is returned, and it is stored in the cache only when
Python finds it truthy, i.e. only when it is a string that is not
empty (`if result:`). -/
def ai_analysis (fetch : ℕ → Option String) (key : String)
    (cache : List (String × String)) (calls : ℕ) :
    Option String × List (String × String) × ℕ :=
  match cache.lookup key with
  | some v => (some v, cache, calls)
  | none =>
    match fetch calls with
    | some s => (some s, if s = "" then cache else (key, s) :: cache, calls + 1)
    | none => (none, cache, calls + 1)

/-- Two successive `ai_analysis` calls with the same key, starting from
an empty cache and zero issued fetches: returns both results, the final
cache and the final fetch count. -/
def ai_analysis_twice (fetch : ℕ → Option String) (key : String) :
    Option String × Option String × List (String × String) × ℕ :=
  let r1 := ai_analysis fetch key [] 0
  let r2 := ai_analysis fetch key r1.2.1 r1.2.2
  (r1.1, r2.1, r2.2.1, r2.2.2)

lemma sir_conservation (p : SimParams) (e : EnvFactors) (t : ℕ) :
    Sval p e t + Ival p e t + Rval p e t = p.population := by
  induction t with
  | zero =>
    rw [Sval_zero, Ival_zero, Rval_zero]
    ring
  | succ n ih =>
    rw [Sval_succ, Ival_succ, Rval_succ]
    linear_combination ih

/-- C1: the simulator's infected-compartment recurrence.  As written the
claim is false: the migration term added to `I[t]` uses the previous
day's susceptible value `S[t-1]`, not `S[t-2]`, because the source
appends the new susceptible value before evaluating `S[-2]`.  Concrete
refutation with beta = 0, gamma = 0, population = 1000,
initial_infected = 0, migration_rate = 1/10, days = 3, at day t = 2:
the code gives `I[2] = 190` while the claimed recurrence
`I[2] = I[1] + new_infected - new_recovered + migration_rate * S[0]`
gives `200`. -/
theorem c1_counterexample :
    seriesI ⟨0, 0, 1000, 0⟩ ⟨20, 60, 1/10⟩ 3 2 ≠
      seriesI ⟨0, 0, 1000, 0⟩ ⟨20, 60, 1/10⟩ 3 1
        + adjusted_beta ⟨0, 0, 1000, 0⟩ ⟨20, 60, 1/10⟩
            * seriesS ⟨0, 0, 1000, 0⟩ ⟨20, 60, 1/10⟩ 3 1
            * seriesI ⟨0, 0, 1000, 0⟩ ⟨20, 60, 1/10⟩ 3 1 / (1000 : ℚ)
        - (0 : ℚ) * seriesI ⟨0, 0, 1000, 0⟩ ⟨20, 60, 1/10⟩ 3 1
        + (1/10 : ℚ) * seriesS ⟨0, 0, 1000, 0⟩ ⟨20, 60, 1/10⟩ 3 0 := by
  have hab : adjusted_beta ⟨0, 0, 1000, 0⟩ ⟨20, 60, 1/10⟩ = 0 := by
    rw [adjusted_beta]
    norm_num
  have hS0 : Sval ⟨0, 0, 1000, 0⟩ ⟨20, 60, 1/10⟩ 0 = 1000 := by
    rw [Sval_zero]
    norm_num
  have hI0 : Ival ⟨0, 0, 1000, 0⟩ ⟨20, 60, 1/10⟩ 0 = 0 := by
    rw [Ival_zero]
  have hS1 : Sval ⟨0, 0, 1000, 0⟩ ⟨20, 60, 1/10⟩ 1 = 900 := by
    rw [show (1 : ℕ) = 0 + 1 from rfl, Sval_succ, hS0, hI0, hab]
    norm_num
  have hI1 : Ival ⟨0, 0, 1000, 0⟩ ⟨20, 60, 1/10⟩ 1 = 100 := by
    rw [show (1 : ℕ) = 0 + 1 from rfl, Ival_succ, hS0, hI0, hab]
    norm_num
  have hI2 : Ival ⟨0, 0, 1000, 0⟩ ⟨20, 60, 1/10⟩ 2 = 190 := by
    rw [show (2 : ℕ) = 1 + 1 from rfl, Ival_succ, hS1, hI1, hab]
    norm_num
  rw [seriesI_eq_Ival _ _ _ _ (by omega), seriesI_eq_Ival _ _ _ _ (by omega),
    seriesS_eq_Sval _ _ _ _ (by omega), seriesS_eq_Sval _ _ _ _ (by omega),
    hI2, hI1, hS1, hS0, hab]
  norm_num

/-- C1 amended: for every day `1 ≤ t < days` the simulator sets
`I[t] = I[t-1] + new_infected - new_recovered + migration_rate * S[t-1]`
with `new_infected = adjusted_beta * S[t-1] * I[t-1] / population` and
`new_recovered = gamma * I[t-1]`: the migration term added to `I` uses
the previous day's susceptible value `S[t-1]` (the same value whose
migration share is subtracted from `S` in the same step), because the
source reads `S[-2]` only after the new day's susceptible value has
been appended to `S`. -/
theorem c1_theorem (p : SimParams) (e : EnvFactors) (days t : ℕ)
    (h1 : 1 ≤ t) (h2 : t < days) :
    seriesI p e days t =
      seriesI p e days (t - 1)
        + adjusted_beta p e * seriesS p e days (t - 1) * seriesI p e days (t - 1)
            / p.population
        - p.gamma * seriesI p e days (t - 1)
        + e.migration_rate * seriesS p e days (t - 1) := by
  obtain ⟨u, rfl⟩ : ∃ u, t = u + 1 := ⟨t - 1, by omega⟩
  rw [Nat.add_sub_cancel,
    seriesI_eq_Ival _ _ _ _ h2, seriesI_eq_Ival _ _ _ _ (by omega),
    seriesS_eq_Sval _ _ _ _ (by omega), Ival_succ]

/-- C1 witness: the amended recurrence instantiated at the default
parameters, days = 2, day t = 1. -/
theorem c1_witness :
    (1 ≤ 1 ∧ 1 < 2) ∧
    seriesI ⟨3/10, 1/10, 1000, 1⟩ ⟨20, 60, 1/200⟩ 2 1 =
      seriesI ⟨3/10, 1/10, 1000, 1⟩ ⟨20, 60, 1/200⟩ 2 0
        + adjusted_beta ⟨3/10, 1/10, 1000, 1⟩ ⟨20, 60, 1/200⟩
            * seriesS ⟨3/10, 1/10, 1000, 1⟩ ⟨20, 60, 1/200⟩ 2 0
            * seriesI ⟨3/10, 1/10, 1000, 1⟩ ⟨20, 60, 1/200⟩ 2 0
            / (⟨3/10, 1/10, 1000, 1⟩ : SimParams).population
        - (⟨3/10, 1/10, 1000, 1⟩ : SimParams).gamma
            * seriesI ⟨3/10, 1/10, 1000, 1⟩ ⟨20, 60, 1/200⟩ 2 0
        + (⟨20, 60, 1/200⟩ : EnvFactors).migration_rate
            * seriesS ⟨3/10, 1/10, 1000, 1⟩ ⟨20, 60, 1/200⟩ 2 0 :=
  ⟨⟨le_refl 1, by omega⟩,
    c1_theorem ⟨3/10, 1/10, 1000, 1⟩ ⟨20, 60, 1/200⟩ 2 1 (by omega) (by omega)⟩

/-- C4: concrete risk-scoring scenario B.  With hue_mean 35, saturation
mean 0.7 and no detections or classifications, the engine computes
`avian_flu_risk = 0.3 * min((40-35)/10 + (0.7-0.65)/0.1, 1.0) = 0.3`,
`total_risk = 0.3 + 0.3 (hue < 50 bonus) + 0.3 (saturation > 0.6 bonus)
 = 0.9`, uses the default threshold 0.65 (no poultry object detected),
and returns the HighRisk verdict (the string `"高风险"`). -/
theorem c4_theorem :
    avian_flu_risk 35 (7/10)
        = 3/10 * min ((40 - 35) / 10 + (7/10 - 13/20) / (1/10)) 1
    ∧ avian_flu_risk 35 (7/10) = 3/10
    ∧ total_risk [] [] 35 (7/10) = 9/10
    ∧ dynamic_threshold [] = risk_threshold
    ∧ risk_threshold = 13/20
    ∧ risk_level [] [] 35 (7/10) = "高风险" := by
  have h1 : avian_flu_risk 35 (7/10)
      = 3/10 * min ((40 - 35) / 10 + (7/10 - 13/20) / (1/10)) 1 := by
    rw [avian_flu_risk, if_pos (by norm_num)]
  have harg : ((40 : ℚ) - 35) / 10 + (7/10 - 13/20) / (1/10) = 1 := by norm_num
  have h2 : avian_flu_risk 35 (7/10) = 3/10 := by
    rw [h1, harg, min_self, mul_one]
  have h3 : total_risk [] [] 35 (7/10) = 9/10 := by
    rw [total_risk, h2, risk_objects, risk_features,
      if_pos (show (35 : ℚ) < 50 by norm_num),
      if_pos (show (3 : ℚ)/5 < 7/10 by norm_num)]
    norm_num
  have h4 : dynamic_threshold [] = risk_threshold := by
    rw [dynamic_threshold, risk_objects]
    rfl
  refine ⟨h1, h2, h3, h4, rfl, ?_⟩
  rw [risk_level, if_pos]
  rw [h3, h4, risk_threshold]
  norm_num

/-- C10: in exact rational arithmetic the simulator conserves total mass:
for every valid parameters, every environment, and every day `t` of the
produced series, `S[t] + I[t] + R[t] = population`, because the
migration mass subtracted from `S` in a step (`migration_rate` times
the previous day's `S`) is exactly the migration mass added to `I` in
the same step. -/
theorem c10_theorem (p : SimParams) (e : EnvFactors) (days t : ℕ)
    (hpop : 0 < p.population) (hinit : 0 < p.initial_infected)
    (hle : p.initial_infected ≤ p.population) (ht : t < days) :
    seriesS p e days t + seriesI p e days t + seriesR p e days t = p.population := by
  rw [seriesS_eq_Sval _ _ _ _ ht, seriesI_eq_Ival _ _ _ _ ht,
    seriesR_eq_Rval _ _ _ _ ht]
  exact sir_conservation p e t

/-- C10 witness: conservation instantiated at the default parameters,
days = 3, day t = 2. -/
theorem c10_witness :
    ((0 : ℚ) < 1000 ∧ (0 : ℚ) < 1 ∧ (1 : ℚ) ≤ 1000 ∧ 2 < 3) ∧
    seriesS ⟨3/10, 1/10, 1000, 1⟩ ⟨20, 60, 1/200⟩ 3 2
      + seriesI ⟨3/10, 1/10, 1000, 1⟩ ⟨20, 60, 1/200⟩ 3 2
      + seriesR ⟨3/10, 1/10, 1000, 1⟩ ⟨20, 60, 1/200⟩ 3 2
      = (⟨3/10, 1/10, 1000, 1⟩ : SimParams).population :=
  ⟨⟨by norm_num, by norm_num, by norm_num, by omega⟩,
    c10_theorem ⟨3/10, 1/10, 1000, 1⟩ ⟨20, 60, 1/200⟩ 3 2
      (by norm_num) (by norm_num) (by norm_num) (by omega)⟩

/-- C2: the claim says `generate_simulation` fails with an explicit
InvalidParameter value whenever `population ≤ 0` (among other bad
inputs) and that no SimulationResult is then produced.  False: the
source performs no input validation.  With population = -5,
initial_infected = 1 and days = 2, the call returns a data frame. -/
theorem c2_counterexample :
    (⟨3/10, 1/10, -5, 1⟩ : SimParams).population ≤ 0
    ∧ generate_simulation_run ⟨3/10, 1/10, -5, 1⟩ ⟨20, 60, 1/200⟩ 2
        ≠ SimOutcome.invalidParameterError
    ∧ ∃ st, generate_simulation_run ⟨3/10, 1/10, -5, 1⟩ ⟨20, 60, 1/200⟩ 2
        = SimOutcome.result st := by
  have hrun : generate_simulation_run ⟨3/10, 1/10, -5, 1⟩ ⟨20, 60, 1/200⟩ 2
      = SimOutcome.result (generate_simulation ⟨3/10, 1/10, -5, 1⟩ ⟨20, 60, 1/200⟩ 2) := by
    rw [generate_simulation_run, if_neg (by omega), if_neg (by norm_num)]
  refine ⟨by norm_num, ?_, ⟨_, hrun⟩⟩
  rw [hrun]
  simp

/-- C2 amended: `generate_simulation` performs no input validation and
never produces an InvalidParameter failure value.  For every
`days ≥ 1` and `population ≠ 0` — including every negative population
and every `initial_infected > population` — a data frame with `days`
rows is produced; `days < 1` raises an uncaught `ValueError` in the
data-frame constructor, and `population = 0` with `days ≥ 2` raises an
uncaught `ZeroDivisionError`, neither of which is an explicit failure
value returned to the caller. -/
theorem c2_theorem (p : SimParams) (e : EnvFactors) (days : ℕ) :
    generate_simulation_run p e days ≠ SimOutcome.invalidParameterError
    ∧ (1 ≤ days → p.population ≠ 0 →
        ∃ st, generate_simulation_run p e days = SimOutcome.result st
          ∧ st.S.length = days ∧ st.I.length = days ∧ st.R.length = days)
    ∧ (days < 1 → generate_simulation_run p e days = SimOutcome.valueErrorCrash)
    ∧ (p.population = 0 → 2 ≤ days →
        generate_simulation_run p e days = SimOutcome.zeroDivisionCrash) := by
  refine ⟨?_, ?_, ?_, ?_⟩
  · rw [generate_simulation_run]
    split
    · simp
    · split
      · simp
      · simp
  · intro hd hp
    have hrun : generate_simulation_run p e days
        = SimOutcome.result (generate_simulation p e days) := by
      rw [generate_simulation_run, if_neg (by omega), if_neg (by tauto)]
    refine ⟨_, hrun, ?_, ?_, ?_⟩
    · rw [generate_simulation, simIter_S_length]
      omega
    · rw [generate_simulation, simIter_I_length]
      omega
    · rw [generate_simulation, simIter_R_length]
      omega
  · intro hd
    rw [generate_simulation_run, if_pos hd]
  · intro hp hd
    rw [generate_simulation_run, if_neg (by omega), if_pos ⟨hp, hd⟩]

/-- C2 witness: the no-validation behaviour instantiated at
population = -5, initial_infected = 1, days = 2. -/
theorem c2_witness :
    (1 ≤ 2 ∧ (⟨3/10, 1/10, -5, 1⟩ : SimParams).population ≠ 0) ∧
    ∃ st, generate_simulation_run ⟨3/10, 1/10, -5, 1⟩ ⟨20, 60, 1/200⟩ 2
        = SimOutcome.result st
      ∧ st.S.length = 2 ∧ st.I.length = 2 ∧ st.R.length = 2 :=
  ⟨⟨by omega, by norm_num⟩,
    (c2_theorem ⟨3/10, 1/10, -5, 1⟩ ⟨20, 60, 1/200⟩ 2).2.1 (by omega) (by norm_num)⟩

/-- C3: the claim says `evaluate_interventions` guards against
`gamma = 0` and fails with an explicit InvalidParameter value.  False:
the source has no guard, so `original_r0 = beta / gamma` raises an
uncaught `ZeroDivisionError`.  Concrete refutation at beta = 0.3,
gamma = 0, empty selection. -/
theorem c3_counterexample :
    evaluate_interventions (3/10) 0 [] = EvalOutcome.zeroDivisionCrash
    ∧ evaluate_interventions (3/10) 0 []
        ≠ EvalOutcome.invalidParameterError := by
  have h : evaluate_interventions (3/10) 0 [] = EvalOutcome.zeroDivisionCrash := by
    rw [evaluate_interventions, if_pos rfl]
  refine ⟨h, ?_⟩
  rw [h]
  simp

/-- C3 amended: for every beta and every selection of intervention ids,
when the current gamma parameter is 0 `evaluate_interventions` raises
an uncaught `ZeroDivisionError` at `beta / gamma` (the call crashes);
it does not return an explicit InvalidParameter failure value. -/
theorem c3_theorem (beta gamma : ℚ) (selected : List String) (hg : gamma = 0) :
    evaluate_interventions beta gamma selected = EvalOutcome.zeroDivisionCrash
    ∧ evaluate_interventions beta gamma selected
        ≠ EvalOutcome.invalidParameterError := by
  have h : evaluate_interventions beta gamma selected = EvalOutcome.zeroDivisionCrash := by
    rw [evaluate_interventions, if_pos hg]
  refine ⟨h, ?_⟩
  rw [h]
  simp

/-- C3 witness: the gamma = 0 crash instantiated at beta = 0.35 with the
vaccination measure selected. -/
theorem c3_witness :
    ((0 : ℚ) = 0) ∧
    (evaluate_interventions (35/100) 0 ["vaccination"] = EvalOutcome.zeroDivisionCrash
      ∧ evaluate_interventions (35/100) 0 ["vaccination"]
          ≠ EvalOutcome.invalidParameterError) :=
  ⟨rfl, c3_theorem (35/100) 0 ["vaccination"] rfl⟩

/-- C5: the claim says the empty selection yields total_cost = 0 and an
r0 reduction of exactly 0 percent for every current beta (with
gamma > 0).  False for beta below the 0.01 floor: with beta = 1/200 and
gamma = 1/10, `new_beta = max(0.01, beta) = 0.01` exceeds beta, and the
reported reduction is -100 percent. -/
theorem c5_counterexample :
    ∃ ev, evaluate_interventions (1/200) (1/10) [] = EvalOutcome.result ev
      ∧ ev.total_cost = 0 ∧ ev.r0_reduction = -100 ∧ ev.r0_reduction ≠ 0 := by
  have h : evaluate_interventions (1/200) (1/10) []
      = EvalOutcome.result ⟨0, -100, 1/10, []⟩ := by
    rw [evaluate_interventions, if_neg (by norm_num), if_neg (by norm_num)]
    have hc : total_cost [] = 0 := rfl
    have hb : total_beta_reduction [] = 0 := rfl
    rw [hc, hb]
    have hmax : max ((1:ℚ)/100) ((1/200) * (1 - 0)) = 1/100 := by
      rw [max_eq_left (by norm_num)]
    rw [hmax]
    norm_num
  exact ⟨⟨0, -100, 1/10, []⟩, h, rfl, rfl, by norm_num⟩

/-- C5 amended: for every current beta at least the 0.01 floor and every
gamma > 0, `evaluate_interventions` applied to the empty selection
returns total_cost = 0 and an r0 reduction of exactly 0 percent (below
the floor the `max(0.01, ...)` clamp makes the reported reduction
negative). -/
theorem c5_theorem (beta gamma : ℚ) (hb : 1/100 ≤ beta) (hg : 0 < gamma) :
    ∃ ev, evaluate_interventions beta gamma [] = EvalOutcome.result ev
      ∧ ev.total_cost = 0 ∧ ev.r0_reduction = 0 := by
  have hbpos : (0 : ℚ) < beta := lt_of_lt_of_le (by norm_num) hb
  have hr0 : beta / gamma ≠ 0 := by positivity
  have h : evaluate_interventions beta gamma []
      = EvalOutcome.result ⟨total_cost [],
          (beta / gamma - max (1/100) (beta * (1 - total_beta_reduction [])) / gamma)
            / (beta / gamma) * 100,
          max (1/100) (beta * (1 - total_beta_reduction [])) / gamma, []⟩ := by
    rw [evaluate_interventions, if_neg (ne_of_gt hg), if_neg hr0]
  refine ⟨_, h, rfl, ?_⟩
  have hbr : total_beta_reduction [] = 0 := rfl
  have hmax : max ((1:ℚ)/100) (beta * (1 - total_beta_reduction [])) = beta := by
    rw [hbr, sub_zero, mul_one, max_eq_right hb]
  rw [hmax]
  simp

/-- C5 witness: the empty-selection identity instantiated at the default
beta = 0.3, gamma = 0.1. -/
theorem c5_witness :
    ((1 : ℚ)/100 ≤ 3/10 ∧ (0 : ℚ) < 1/10) ∧
    ∃ ev, evaluate_interventions (3/10) (1/10) [] = EvalOutcome.result ev
      ∧ ev.total_cost = 0 ∧ ev.r0_reduction = 0 :=
  ⟨⟨by norm_num, by norm_num⟩, c5_theorem (3/10) (1/10) (by norm_num) (by norm_num)⟩

lemma findIntervention_cases (m : String) :
    findIntervention m = none
    ∨ findIntervention m = some ⟨5000, 7/10, 3/10⟩
    ∨ findIntervention m = some ⟨2000, 9/10, 1/2⟩
    ∨ findIntervention m = some ⟨1000, 6/10, 1/5⟩
    ∨ findIntervention m = some ⟨3000, 8/10, 2/5⟩ := by
  rw [findIntervention, interventions]
  cases h1 : m == "vaccination" <;> cases h2 : m == "isolation" <;>
    cases h3 : m == "sanitation" <;> cases h4 : m == "restriction" <;>
      simp [List.lookup, h1, h2, h3, h4]

lemma costOf_nonneg (m : String) : 0 ≤ costOf m := by
  rcases findIntervention_cases m with h | h | h | h | h <;>
    simp [costOf, h]

lemma betaRedOf_nonneg (m : String) : 0 ≤ betaRedOf m := by
  rcases findIntervention_cases m with h | h | h | h | h <;>
    simp [betaRedOf, h] <;> norm_num

lemma total_cost_append (l : List String) (m : String) :
    total_cost (l ++ [m]) = total_cost l + costOf m := by
  rw [total_cost, total_cost, List.map_append, List.sum_append]
  simp

lemma total_beta_reduction_append (l : List String) (m : String) :
    total_beta_reduction (l ++ [m]) = total_beta_reduction l + betaRedOf m := by
  rw [total_beta_reduction, total_beta_reduction, List.map_append, List.sum_append]
  simp

/-- C6: `evaluate_interventions` is monotonic: for every selection list
and every additional intervention id appended to it (beta > 0 and
gamma > 0 held fixed), the evaluation succeeds on both selections, the
total cost never decreases, and the reported r0 reduction percentage
never decreases. -/
theorem c6_theorem (beta gamma : ℚ) (l : List String) (m : String)
    (hb : 0 < beta) (hg : 0 < gamma) :
    ∃ ev1 ev2, evaluate_interventions beta gamma l = EvalOutcome.result ev1
      ∧ evaluate_interventions beta gamma (l ++ [m]) = EvalOutcome.result ev2
      ∧ ev1.total_cost ≤ ev2.total_cost
      ∧ ev1.r0_reduction ≤ ev2.r0_reduction := by
  have hr0pos : (0 : ℚ) < beta / gamma := div_pos hb hg
  have hr0 : beta / gamma ≠ 0 := ne_of_gt hr0pos
  have heval : ∀ s : List String, evaluate_interventions beta gamma s
      = EvalOutcome.result ⟨total_cost s,
          (beta / gamma - max (1/100) (beta * (1 - total_beta_reduction s)) / gamma)
            / (beta / gamma) * 100,
          max (1/100) (beta * (1 - total_beta_reduction s)) / gamma, s⟩ := by
    intro s
    rw [evaluate_interventions, if_neg (ne_of_gt hg), if_neg hr0]
  refine ⟨_, _, heval l, heval (l ++ [m]), ?_, ?_⟩
  · rw [total_cost_append]
    have := costOf_nonneg m
    linarith
  · have hdelta := betaRedOf_nonneg m
    have hbmono : beta * (1 - total_beta_reduction (l ++ [m]))
        ≤ beta * (1 - total_beta_reduction l) := by
      rw [total_beta_reduction_append]
      apply mul_le_mul_of_nonneg_left _ (le_of_lt hb)
      linarith
    have hmaxmono : max ((1:ℚ)/100) (beta * (1 - total_beta_reduction (l ++ [m])))
        ≤ max ((1:ℚ)/100) (beta * (1 - total_beta_reduction l)) :=
      max_le_max (le_refl _) hbmono
    have hdivmono : max ((1:ℚ)/100) (beta * (1 - total_beta_reduction (l ++ [m]))) / gamma
        ≤ max ((1:ℚ)/100) (beta * (1 - total_beta_reduction l)) / gamma :=
      (div_le_div_iff_of_pos_right hg).mpr hmaxmono
    have hsub : beta / gamma
          - max ((1:ℚ)/100) (beta * (1 - total_beta_reduction l)) / gamma
        ≤ beta / gamma
          - max ((1:ℚ)/100) (beta * (1 - total_beta_reduction (l ++ [m]))) / gamma := by
      linarith
    have hdiv2 := (div_le_div_iff_of_pos_right hr0pos).mpr hsub
    exact mul_le_mul_of_nonneg_right hdiv2 (by norm_num)

/-- C6 witness: monotonicity instantiated at beta = 0.3, gamma = 0.1,
adding the isolation measure to the empty selection. -/
theorem c6_witness :
    ((0 : ℚ) < 3/10 ∧ (0 : ℚ) < 1/10) ∧
    ∃ ev1 ev2, evaluate_interventions (3/10) (1/10) [] = EvalOutcome.result ev1
      ∧ evaluate_interventions (3/10) (1/10) ([] ++ ["isolation"]) = EvalOutcome.result ev2
      ∧ ev1.total_cost ≤ ev2.total_cost
      ∧ ev1.r0_reduction ≤ ev2.r0_reduction :=
  ⟨⟨by norm_num, by norm_num⟩,
    c6_theorem (3/10) (1/10) [] "isolation" (by norm_num) (by norm_num)⟩

/-- The contribution of one detection to the risk-object confidence sum:
its weighted confidence when it passes the filter, else 0. -/
def objContrib (o : DetItem) : ℚ :=
  if isRiskObject o then o.confidence * (1/2) else 0

/-- The contribution of one classification to the risk-feature
confidence sum: its weighted confidence when it passes the filter,
else 0. -/
def featContrib (f : ClsItem) : ℚ :=
  if isRiskFeature f then f.confidence * (1/5) else 0

lemma sum_objContrib (l : List DetItem) :
    ((risk_objects l).map (fun o => o.confidence * (1/2))).sum
      = (l.map objContrib).sum := by
  induction l with
  | nil => rfl
  | cons a t ih =>
    simp only [risk_objects] at ih ⊢
    rw [List.filter_cons]
    by_cases h : isRiskObject a
    · rw [if_pos h, List.map_cons, List.sum_cons, List.map_cons, List.sum_cons,
        ih, objContrib, if_pos h]
    · rw [if_neg h, List.map_cons, List.sum_cons, ih, objContrib, if_neg h, zero_add]

lemma sum_featContrib (l : List ClsItem) :
    ((risk_features l).map (fun f => f.confidence * (1/5))).sum
      = (l.map featContrib).sum := by
  induction l with
  | nil => rfl
  | cons a t ih =>
    simp only [risk_features] at ih ⊢
    rw [List.filter_cons]
    by_cases h : isRiskFeature a
    · rw [if_pos h, List.map_cons, List.sum_cons, List.map_cons, List.sum_cons,
        ih, featContrib, if_pos h]
    · rw [if_neg h, List.map_cons, List.sum_cons, ih, featContrib, if_neg h, zero_add]

lemma sum_map_set_le {α : Type} (f : α → ℚ) :
    ∀ (l : List α) (i : ℕ) (x : α) (hi : i < l.length),
      f (l.get ⟨i, hi⟩) ≤ f x → (l.map f).sum ≤ ((l.set i x).map f).sum := by
  intro l
  induction l with
  | nil =>
    intro i x hi
    simp at hi
  | cons a t ih =>
    intro i x hi hfx
    cases i with
    | zero =>
      simp only [List.set_cons_zero, List.map_cons, List.sum_cons]
      simp only [List.get] at hfx
      linarith
    | succ n =>
      simp only [List.set_cons_succ, List.map_cons, List.sum_cons]
      have hn : n < t.length := by
        simp only [List.length_cons] at hi
        omega
      have := ih n x hn (by simpa [List.get] using hfx)
      linarith

lemma objContrib_mono (name : String) (c c' : ℚ) (h : c ≤ c') :
    objContrib ⟨name, c⟩ ≤ objContrib ⟨name, c'⟩ := by
  rw [objContrib, objContrib]
  by_cases h1 : isRiskObject ⟨name, c⟩
  · have hparts := (Bool.and_eq_true _ _).mp h1
    have hc : (1:ℚ)/2 < c := of_decide_eq_true hparts.2
    have h2 : isRiskObject ⟨name, c'⟩ = true :=
      (Bool.and_eq_true _ _).mpr
        ⟨hparts.1, decide_eq_true (lt_of_lt_of_le hc h)⟩
    rw [if_pos h1, if_pos h2]
    show c * (1/2) ≤ c' * (1/2)
    linarith
  · rw [if_neg h1]
    by_cases h2 : isRiskObject ⟨name, c'⟩
    · rw [if_pos h2]
      have hc' : (1:ℚ)/2 < c' :=
        of_decide_eq_true ((Bool.and_eq_true _ _).mp h2).2
      show (0:ℚ) ≤ c' * (1/2)
      linarith
    · rw [if_neg h2]

lemma featContrib_mono (label : String) (c c' : ℚ) (h : c ≤ c') :
    featContrib ⟨label, c⟩ ≤ featContrib ⟨label, c'⟩ := by
  rw [featContrib, featContrib]
  by_cases h1 : isRiskFeature ⟨label, c⟩
  · have hparts := (Bool.and_eq_true _ _).mp h1
    have hc : (50:ℚ) < c := of_decide_eq_true hparts.2
    have h2 : isRiskFeature ⟨label, c'⟩ = true :=
      (Bool.and_eq_true _ _).mpr
        ⟨hparts.1, decide_eq_true (lt_of_lt_of_le hc h)⟩
    rw [if_pos h1, if_pos h2]
    show c * (1/5) ≤ c' * (1/5)
    linarith
  · rw [if_neg h1]
    by_cases h2 : isRiskFeature ⟨label, c'⟩
    · rw [if_pos h2]
      have hc' : (50:ℚ) < c' :=
        of_decide_eq_true ((Bool.and_eq_true _ _).mp h2).2
      show (0:ℚ) ≤ c' * (1/5)
      linarith
    · rw [if_neg h2]

/-- C7: risk-scoring monotonicity.  Raising the confidence of any single
detection item (keeping its label), or of any single classification
item, while holding every other input fixed, never decreases
`total_risk`: either the item's filtered contribution grows, or the
item newly passes its confidence filter and contributes a positive
term, or it stays filtered out and nothing changes. -/
theorem c7_theorem (dets : List DetItem) (cls : List ClsItem)
    (h_mean s_mean : ℚ) (i : ℕ) (c' : ℚ) :
    (∀ hi : i < dets.length,
      (dets.get ⟨i, hi⟩).confidence ≤ c' →
        total_risk dets cls h_mean s_mean
          ≤ total_risk (dets.set i ⟨(dets.get ⟨i, hi⟩).name, c'⟩) cls h_mean s_mean)
    ∧ (∀ hi : i < cls.length,
      (cls.get ⟨i, hi⟩).confidence ≤ c' →
        total_risk dets cls h_mean s_mean
          ≤ total_risk dets (cls.set i ⟨(cls.get ⟨i, hi⟩).label, c'⟩) h_mean s_mean) := by
  constructor
  · intro hi hconf
    rw [total_risk, total_risk, sum_objContrib, sum_objContrib]
    have hmono : objContrib (dets.get ⟨i, hi⟩)
        ≤ objContrib ⟨(dets.get ⟨i, hi⟩).name, c'⟩ := by
      have heta : dets.get ⟨i, hi⟩
          = ⟨(dets.get ⟨i, hi⟩).name, (dets.get ⟨i, hi⟩).confidence⟩ := rfl
      calc objContrib (dets.get ⟨i, hi⟩)
          = objContrib ⟨(dets.get ⟨i, hi⟩).name, (dets.get ⟨i, hi⟩).confidence⟩ := by
            rw [← heta]
        _ ≤ objContrib ⟨(dets.get ⟨i, hi⟩).name, c'⟩ :=
            objContrib_mono _ _ _ hconf
    have hsum := sum_map_set_le objContrib dets i
      ⟨(dets.get ⟨i, hi⟩).name, c'⟩ hi hmono
    linarith
  · intro hi hconf
    rw [total_risk, total_risk, sum_featContrib, sum_featContrib]
    have hmono : featContrib (cls.get ⟨i, hi⟩)
        ≤ featContrib ⟨(cls.get ⟨i, hi⟩).label, c'⟩ := by
      have heta : cls.get ⟨i, hi⟩
          = ⟨(cls.get ⟨i, hi⟩).label, (cls.get ⟨i, hi⟩).confidence⟩ := rfl
      calc featContrib (cls.get ⟨i, hi⟩)
          = featContrib ⟨(cls.get ⟨i, hi⟩).label, (cls.get ⟨i, hi⟩).confidence⟩ := by
            rw [← heta]
        _ ≤ featContrib ⟨(cls.get ⟨i, hi⟩).label, c'⟩ :=
            featContrib_mono _ _ _ hconf
    have hsum := sum_map_set_le featContrib cls i
      ⟨(cls.get ⟨i, hi⟩).label, c'⟩ hi hmono
    linarith

/-- C7 witness: monotonicity instantiated for a bird detection raised
from confidence 0.6 to 0.8 and a blood classification raised from 60 to
80, at hue 100 and saturation 0. -/
theorem c7_witness :
    ((0 < 1 ∧ (3:ℚ)/5 ≤ 4/5) ∧
      total_risk [⟨"bird", 3/5⟩] [⟨"blood", 60⟩] 100 0
        ≤ total_risk ([⟨"bird", 3/5⟩].set 0
            ⟨(([⟨"bird", (3:ℚ)/5⟩] : List DetItem).get ⟨0, by norm_num⟩).name, 4/5⟩)
            [⟨"blood", 60⟩] 100 0)
    ∧ ((0 < 1 ∧ (60:ℚ) ≤ 80) ∧
      total_risk [⟨"bird", 3/5⟩] [⟨"blood", 60⟩] 100 0
        ≤ total_risk [⟨"bird", 3/5⟩] ([⟨"blood", 60⟩].set 0
            ⟨(([⟨"blood", (60:ℚ)⟩] : List ClsItem).get ⟨0, by norm_num⟩).label, 80⟩)
            100 0) :=
  ⟨⟨⟨by omega, by norm_num⟩,
      ( c7_theorem [⟨"bird", 3/5⟩] [⟨"blood", 60⟩] 100 0 0 (4/5)).1
        (by norm_num) (by norm_num)⟩,
    ⟨⟨by omega, by norm_num⟩,
      ( c7_theorem [⟨"bird", 3/5⟩] [⟨"blood", 60⟩] 100 0 0 80).2
        (by norm_num) (by norm_num)⟩⟩

lemma ai_analysis_hit (fetch : ℕ → Option String) (key v : String)
    (cache : List (String × String)) (calls : ℕ) (h : cache.lookup key = some v) :
    ai_analysis fetch key cache calls = (some v, cache, calls) := by
  rw [ai_analysis, h]

lemma ai_analysis_miss (fetch : ℕ → Option String) (key : String)
    (cache : List (String × String)) (calls : ℕ) (h : cache.lookup key = none) :
    ai_analysis fetch key cache calls =
      match fetch calls with
      | some s => (some s, if s = "" then cache else (key, s) :: cache, calls + 1)
      | none => (none, cache, calls + 1) := by
  rw [ai_analysis, h]

/-- C8: the claim says issuing the same (query, parameter-snapshot)
advisory request twice makes exactly one remote call whenever the first
request succeeds.  False for a successful but empty reply: Python
caches only truthy results (`if result:`), so a returned empty string
is not cached and the second identical request makes a second remote
call (two calls in total). -/
theorem c8_counterexample :
    (fun _ : ℕ => (some "" : Option String)) 0 = some ""
    ∧ (ai_analysis_twice (fun _ : ℕ => (some "" : Option String))
        (cache_key "q" "params" "env")).2.2.2 = 2
    ∧ (ai_analysis_twice (fun _ : ℕ => (some "" : Option String))
        (cache_key "q" "params" "env")).2.2.2 ≠ 1 := by
  have h1 : ai_analysis (fun _ : ℕ => (some "" : Option String))
      (cache_key "q" "params" "env") [] 0 = (some "", [], 1) := by
    rw [ai_analysis_miss (fun _ : ℕ => (some "" : Option String))
      (cache_key "q" "params" "env") [] 0 rfl]
    simp
  have h2 : ai_analysis (fun _ : ℕ => (some "" : Option String))
      (cache_key "q" "params" "env") [] 1 = (some "", [], 2) := by
    rw [ai_analysis_miss (fun _ : ℕ => (some "" : Option String))
      (cache_key "q" "params" "env") [] 1 rfl]
    simp
  refine ⟨rfl, ?_, ?_⟩ <;> simp [ai_analysis_twice, h1, h2]

/-- C8 amended: for every (query, parameter-snapshot) pair, issuing the
same advisory request twice results in exactly one remote call when the
first request succeeds with non-empty advisory text (the second request
is served from the cache); a failed advisory fetch is never cached (the
cache is left unchanged), and a successful-but-empty advisory is also
not cached — only successful non-empty results enter the cache — so in
the empty-reply case the repeated request issues a second remote
call. -/
theorem c8_theorem (fetch : ℕ → Option String) (q paramsRepr envRepr s : String) :
    (fetch 0 = some s → s ≠ "" →
      ai_analysis_twice fetch (cache_key q paramsRepr envRepr)
        = (some s, some s, [(cache_key q paramsRepr envRepr, s)], 1))
    ∧ (fetch 0 = none →
      ai_analysis fetch (cache_key q paramsRepr envRepr) [] 0 = (none, [], 1))
    ∧ (fetch 0 = some "" → fetch 1 = some "" →
      ai_analysis_twice fetch (cache_key q paramsRepr envRepr)
        = (some "", some "", [], 2)) := by
  refine ⟨?_, ?_, ?_⟩
  · intro h0 hs
    have h1 : ai_analysis fetch (cache_key q paramsRepr envRepr) [] 0
        = (some s, [(cache_key q paramsRepr envRepr, s)], 1) := by
      rw [ai_analysis_miss fetch (cache_key q paramsRepr envRepr) [] 0 rfl, h0]
      simp [hs]
    have hlook : List.lookup (cache_key q paramsRepr envRepr)
        [(cache_key q paramsRepr envRepr, s)] = some s := by
      simp [List.lookup]
    have h2 : ai_analysis fetch (cache_key q paramsRepr envRepr)
        [(cache_key q paramsRepr envRepr, s)] 1
        = (some s, [(cache_key q paramsRepr envRepr, s)], 1) :=
      ai_analysis_hit fetch (cache_key q paramsRepr envRepr) s
        [(cache_key q paramsRepr envRepr, s)] 1 hlook
    simp [ai_analysis_twice, h1, h2]
  · intro h0
    rw [ai_analysis_miss fetch (cache_key q paramsRepr envRepr) [] 0 rfl, h0]
  · intro h0 h1
    have ha : ai_analysis fetch (cache_key q paramsRepr envRepr) [] 0
        = (some "", [], 1) := by
      rw [ai_analysis_miss fetch (cache_key q paramsRepr envRepr) [] 0 rfl, h0]
      simp
    have hb : ai_analysis fetch (cache_key q paramsRepr envRepr) [] 1
        = (some "", [], 2) := by
      rw [ai_analysis_miss fetch (cache_key q paramsRepr envRepr) [] 1 rfl, h1]
      simp
    simp [ai_analysis_twice, ha, hb]

/-- C8 witness: the one-remote-call-then-cache-hit behaviour
instantiated for a fetch that answers `"ok"` on its first invocation. -/
theorem c8_witness :
    ((fun _ : ℕ => (some "ok" : Option String)) 0 = some "ok" ∧ "ok" ≠ "") ∧
    ai_analysis_twice (fun _ : ℕ => (some "ok" : Option String))
        (cache_key "q" "params" "env")
      = (some "ok", some "ok", [(cache_key "q" "params" "env", "ok")], 1) :=
  ⟨⟨rfl, by simp⟩,
    (c8_theorem (fun _ : ℕ => (some "ok" : Option String)) "q" "params" "env" "ok").1
      rfl (by simp)⟩

lemma retryLoop_ok (att : ℕ → AttemptOutcome) (r : ℕ) (h : r < 3) (s : String)
    (ha : att r = .ok s) : retryLoop att r = ⟨some s, [], 1⟩ := by
  rw [retryLoop, dif_pos h, ha]

lemma retryLoop_parse (att : ℕ → AttemptOutcome) (r : ℕ) (h : r < 3)
    (ha : att r = .parseError) : retryLoop att r = ⟨none, [], 1⟩ := by
  rw [retryLoop, dif_pos h, ha]

lemma retryLoop_req (att : ℕ → AttemptOutcome) (r : ℕ) (h : r < 3)
    (ha : att r = .requestError) :
    retryLoop att r = ⟨(retryLoop att (r + 1)).result,
      2 ^ (r + 1) :: (retryLoop att (r + 1)).sleeps,
      (retryLoop att (r + 1)).requests + 1⟩ := by
  rw [retryLoop, dif_pos h, ha]

lemma retryLoop_stop (att : ℕ → AttemptOutcome) : retryLoop att 3 = ⟨none, [], 0⟩ := by
  rw [retryLoop, dif_neg (by omega)]

lemma retryLoop_requests_le (att : ℕ → AttemptOutcome) (r : ℕ) :
    (retryLoop att r).requests ≤ 3 - r := by
  by_cases h3 : r < 3
  · have key : ∀ k r, 3 - r ≤ k → (retryLoop att r).requests ≤ 3 - r := by
      intro k
      induction k with
      | zero =>
        intro r hr
        rw [retryLoop, dif_neg (by omega)]
        dsimp only
        omega
      | succ n ih =>
        intro r hr
        by_cases hlt : r < 3
        · cases ha : att r with
          | ok s =>
            rw [retryLoop_ok att r hlt s ha]
            dsimp only
            omega
          | parseError =>
            rw [retryLoop_parse att r hlt ha]
            dsimp only
            omega
          | requestError =>
            rw [retryLoop_req att r hlt ha]
            have := ih (r + 1) (by omega)
            dsimp only
            omega
        · rw [retryLoop, dif_neg hlt]
          dsimp only
          omega
    exact key (3 - r) r (le_refl _)
  · rw [retryLoop, dif_neg h3]
    dsimp only
    omega

/-- C9: on a cache miss the retry client issues at most 3 remote
attempts; after the k-th failed request attempt it sleeps `2^k` time
units (backoff 2, 4, 8 with the attempt counter starting at 1); a
malformed-response parse failure (`KeyError`) returns the `None`
sentinel immediately without consuming further retries; and after all
three request attempts fail the `None` sentinel is returned.  The
attempt oracle `att` gives the outcome of the attempt made at each
value of the retry counter. -/
theorem c9_theorem (att : ℕ → AttemptOutcome) :
    (ai_analysis_with_retry att).requests ≤ 3
    ∧ ((∀ k, k < 3 → att k = .requestError) →
        ai_analysis_with_retry att = ⟨none, [2, 4, 8], 3⟩)
    ∧ (∀ i, i < 3 → (∀ j, j < i → att j = .requestError) → att i = .parseError →
        ai_analysis_with_retry att
          = ⟨none, (List.range i).map (fun k => 2 ^ (k + 1)), i + 1⟩)
    ∧ (∀ i s, i < 3 → (∀ j, j < i → att j = .requestError) → att i = .ok s →
        ai_analysis_with_retry att
          = ⟨some s, (List.range i).map (fun k => 2 ^ (k + 1)), i + 1⟩) := by
  refine ⟨?_, ?_, ?_, ?_⟩
  · have := retryLoop_requests_le att 0
    rw [ai_analysis_with_retry]
    omega
  · intro hall
    rw [ai_analysis_with_retry,
      retryLoop_req att 0 (by omega) (hall 0 (by omega)),
      retryLoop_req att 1 (by omega) (hall 1 (by omega)),
      retryLoop_req att 2 (by omega) (hall 2 (by omega)),
      retryLoop_stop att]
    dsimp only
    norm_num
  · intro i hi hpre hp
    interval_cases i
    · rw [ai_analysis_with_retry, retryLoop_parse att 0 (by omega) hp]
      rfl
    · rw [ai_analysis_with_retry,
        retryLoop_req att 0 (by omega) (hpre 0 (by omega)),
        retryLoop_parse att 1 (by omega) hp]
      rfl
    · rw [ai_analysis_with_retry,
        retryLoop_req att 0 (by omega) (hpre 0 (by omega)),
        retryLoop_req att 1 (by omega) (hpre 1 (by omega)),
        retryLoop_parse att 2 (by omega) hp]
      rfl
  · intro i s hi hpre hok
    interval_cases i
    · rw [ai_analysis_with_retry, retryLoop_ok att 0 (by omega) s hok]
      rfl
    · rw [ai_analysis_with_retry,
        retryLoop_req att 0 (by omega) (hpre 0 (by omega)),
        retryLoop_ok att 1 (by omega) s hok]
      rfl
    · rw [ai_analysis_with_retry,
        retryLoop_req att 0 (by omega) (hpre 0 (by omega)),
        retryLoop_req att 1 (by omega) (hpre 1 (by omega)),
        retryLoop_ok att 2 (by omega) s hok]
      rfl

/-- C9 witness: the retry schedule instantiated for an oracle whose
requests always fail: three attempts, sleeps 2, 4, 8, and the `None`
sentinel. -/
theorem c9_witness :
    (∀ k, k < 3 → (fun _ : ℕ => AttemptOutcome.requestError) k
        = AttemptOutcome.requestError) ∧
    ai_analysis_with_retry (fun _ : ℕ => AttemptOutcome.requestError)
      = ⟨none, [2, 4, 8], 3⟩ :=
  ⟨fun _ _ => rfl,
    (c9_theorem (fun _ : ℕ => AttemptOutcome.requestError)).2.1
      (fun _ _ => rfl)⟩
